import Mathlib

/-!
Shallow embedding of the workspace subsystem of the `chays-meets` repository
(`src/frontend/src-tauri/src/workspace/{types,filesystem,manager,migration}.rs`),
together with proofs about the claims of the specification.

Modelling conventions:
* JSON documents are modelled as `Json` trees.  `serde_json::to_string_pretty`
  followed by `serde_json::from_str` is the identity on JSON documents, so a
  file written by this code stores the `Json` tree directly
  (`FileData.jsonDoc`); bytes that are not valid JSON text are modelled by
  `FileData.raw`, on which every schema parse fails.
* The filesystem is a pure value: a directory is a finite association list
  from names to contents.  Fallible environment effects (connection opens,
  SQL query results, fs write/rename outcomes) are supplied by explicit
  oracle records, so every error path of the source is reachable in the model.
* Machine integers (`u32`, `i32`, `i64`) carry no arithmetic in the code under
  study, so they are modelled as `Nat`/`Int`.
-/

/-- JSON documents, as produced and consumed by `serde_json`. -/
inductive Json where
  | null : Json
  | bool (b : Bool) : Json
  | num (n : Nat) : Json
  | str (s : String) : Json
  | arr (xs : List Json) : Json
  | obj (fields : List (String × Json)) : Json

namespace Json

/-- Look up a field of a JSON object (first occurrence wins, as in `serde`). -/
def getField : Json → String → Option Json
  | obj fields, key => go fields key
  | _, _ => none
where
  go : List (String × Json) → String → Option Json
    | [], _ => none
    | (k, v) :: rest, key => if k = key then some v else go rest key

/-- Decode a JSON value as a string. -/
def asStr : Json → Option String
  | str s => some s
  | _ => none

/-- Decode a JSON value as an unsigned integer. -/
def asNat : Json → Option Nat
  | num n => some n
  | _ => none

end Json

/-- Contents of a file on disk. -/
inductive FileData where
  | jsonDoc (j : Json) : FileData
  | raw (s : String) : FileData

/-- Parse file contents as a JSON document (`serde_json::from_str` succeeding
exactly on well-formed JSON text). -/
def FileData.parseJson : FileData → Option Json
  | .jsonDoc j => some j
  | .raw _ => none

/-- Association-list lookup for directory contents keyed by file name. -/
def getFile : List (String × FileData) → String → Option FileData
  | [], _ => none
  | (k, v) :: rest, key => if k = key then some v else getFile rest key

/-- Remove a file from a directory. -/
def eraseKey : List (String × FileData) → String → List (String × FileData)
  | [], _ => []
  | (k, v) :: rest, key =>
    if k = key then eraseKey rest key else (k, v) :: eraseKey rest key

/-- Write (create or overwrite) a file in a directory.  `fs::write` creates
the file or truncates and replaces its contents; the position of the entry in
the association list is immaterial to every observation made here. -/
def setFile (dir : List (String × FileData)) (key : String) (v : FileData) :
    List (String × FileData) :=
  (key, v) :: eraseKey dir key

/-! ## Data model (`workspace/types.rs`) -/

/-- Per-workspace metadata stored in `manifest.json` (source: `WorkspaceManifest`,
`types.rs` lines 4-22).  `version` is `u32` in the source; no arithmetic is
performed on it. -/
structure WorkspaceManifest where
  version : Nat
  name : String
  icon : Option String
  accent_color : Option String
  description : Option String
  app_version : Option String
  created_at : String
  last_modified : String
deriving DecidableEq, Repr

/-- Cached registry entry (source: `WorkspaceEntry`, `types.rs` lines 25-33). -/
structure WorkspaceEntry where
  id : String
  name : String
  icon : Option String
deriving DecidableEq, Repr

/-- Registry file contents (source: `WorkspaceRegistry`, `types.rs` lines 36-44). -/
structure WorkspaceRegistry where
  version : Nat
  workspaces : List WorkspaceEntry
  last_active : Option String
deriving DecidableEq, Repr

/-- Source: `impl Default for WorkspaceRegistry` (`types.rs` lines 46-54). -/
def WorkspaceRegistry.default : WorkspaceRegistry :=
  { version := 1, workspaces := [], last_active := none }

/-! ## Serde encodings

`serde` derives field-by-field object encodings; `Option::None` fields are
serialized as `null` and deserialization accepts both `null` and a missing
field as `None`. -/

/-- Encode an optional string the way `serde` does. -/
def optStrToJson : Option String → Json
  | none => Json.null
  | some s => Json.str s

/-- Decode an optional-string field: absent or `null` gives `none`, a string
gives `some`, anything else is a type error. -/
def optStrField (j : Json) (key : String) : Option (Option String) :=
  match j.getField key with
  | none => some none
  | some Json.null => some none
  | some (Json.str s) => some (some s)
  | some _ => none

/-- Decode a required string field. -/
def strField (j : Json) (key : String) : Option String :=
  (j.getField key).bind Json.asStr

/-- Decode a required unsigned-integer field. -/
def natField (j : Json) (key : String) : Option Nat :=
  (j.getField key).bind Json.asNat

/-- Serde serialization of `WorkspaceManifest`. -/
def manifestToJson (m : WorkspaceManifest) : Json :=
  Json.obj
    [ ("version", Json.num m.version)
    , ("name", Json.str m.name)
    , ("icon", optStrToJson m.icon)
    , ("accent_color", optStrToJson m.accent_color)
    , ("description", optStrToJson m.description)
    , ("app_version", optStrToJson m.app_version)
    , ("created_at", Json.str m.created_at)
    , ("last_modified", Json.str m.last_modified) ]

/-- Serde deserialization of `WorkspaceManifest`. -/
def manifestFromJson (j : Json) : Option WorkspaceManifest :=
  match j with
  | Json.obj _ =>
    match natField j "version", strField j "name", optStrField j "icon",
          optStrField j "accent_color", optStrField j "description",
          optStrField j "app_version", strField j "created_at",
          strField j "last_modified" with
    | some version, some name, some icon, some accent_color, some description,
      some app_version, some created_at, some last_modified =>
        some { version := version, name := name, icon := icon,
               accent_color := accent_color, description := description,
               app_version := app_version, created_at := created_at,
               last_modified := last_modified }
    | _, _, _, _, _, _, _, _ => none
  | _ => none

/-- Serde serialization of `WorkspaceEntry`. -/
def entryToJson (e : WorkspaceEntry) : Json :=
  Json.obj
    [ ("id", Json.str e.id)
    , ("name", Json.str e.name)
    , ("icon", optStrToJson e.icon) ]

/-- Serde deserialization of `WorkspaceEntry`. -/
def entryFromJson (j : Json) : Option WorkspaceEntry :=
  match j with
  | Json.obj _ =>
    match strField j "id", strField j "name", optStrField j "icon" with
    | some id, some name, some icon => some { id := id, name := name, icon := icon }
    | _, _, _ => none
  | _ => none

/-- Serde serialization of `WorkspaceRegistry`. -/
def registryToJson (r : WorkspaceRegistry) : Json :=
  Json.obj
    [ ("version", Json.num r.version)
    , ("workspaces", Json.arr (r.workspaces.map entryToJson))
    , ("last_active", optStrToJson r.last_active) ]

/-- Serde deserialization of `WorkspaceRegistry`. -/
def registryFromJson (j : Json) : Option WorkspaceRegistry :=
  match j with
  | Json.obj _ =>
    match natField j "version", j.getField "workspaces", optStrField j "last_active" with
    | some version, some (Json.arr xs), some last_active =>
      match xs.mapM entryFromJson with
      | some entries =>
          some { version := version, workspaces := entries, last_active := last_active }
      | none => none
    | _, _, _ => none
  | _ => none

/-! ## Persistence layer (`workspace/filesystem.rs`) -/

/-- Source: `write_manifest` (`filesystem.rs` lines 23-31).  Serializes the
manifest and writes it to `manifest.json` in the workspace directory.
Serialization of these types cannot fail and the fs write outcome does not
affect any claim studied here, so the write is modelled as succeeding. -/
def write_manifest (workspace_dir : List (String × FileData))
    (manifest : WorkspaceManifest) : List (String × FileData) :=
  setFile workspace_dir "manifest.json" (FileData.jsonDoc (manifestToJson manifest))

/-- Source: `read_manifest` (`filesystem.rs` lines 34-41).  Reads
`manifest.json` and parses it; a missing file is a read error and content
that fails to parse is a parse error. -/
def read_manifest (workspace_dir : List (String × FileData)) :
    Except String WorkspaceManifest :=
  match getFile workspace_dir "manifest.json" with
  | none => Except.error "Failed to read manifest"
  | some fd =>
    match fd.parseJson.bind manifestFromJson with
    | none => Except.error "Failed to parse manifest"
    | some m => Except.ok m

/-! ### Round-trip lemmas -/

theorem getFile_setFile_same (dir : List (String × FileData)) (key : String)
    (v : FileData) : getFile (setFile dir key v) key = some v := by
  simp [setFile, getFile]

theorem getFile_eraseKey_ne (dir : List (String × FileData)) (key p : String)
    (h : p ≠ key) :
    getFile (eraseKey dir key) p = getFile dir p := by
  induction dir with
  | nil => rfl
  | cons kv rest ih =>
    obtain ⟨k, v⟩ := kv
    by_cases hk : k = key
    · have hp : k ≠ p := fun hc => h (hc.symm.trans hk)
      simp [eraseKey, hk, getFile, hp, ih, Ne.symm h]
    · by_cases hp : k = p
      · simp [eraseKey, hk, getFile, hp, h]
      · simp [eraseKey, hk, getFile, hp, ih]

theorem getFile_eraseKey_same (dir : List (String × FileData)) (key : String) :
    getFile (eraseKey dir key) key = none := by
  induction dir with
  | nil => rfl
  | cons kv rest ih =>
    obtain ⟨k, v⟩ := kv
    by_cases hk : k = key
    · simp [eraseKey, hk, ih]
    · simp [eraseKey, hk, getFile, ih]

theorem getFile_setFile_other (dir : List (String × FileData)) (key p : String)
    (v : FileData) (h : p ≠ key) :
    getFile (setFile dir key v) p = getFile dir p := by
  have hk : key ≠ p := fun hc => h hc.symm
  simp [setFile, getFile, hk, getFile_eraseKey_ne dir key p h]

theorem manifest_from_to (m : WorkspaceManifest) :
    manifestFromJson (manifestToJson m) = some m := by
  rcases m with ⟨v, n, icon, ac, d, av, ca, lm⟩
  rcases icon with _ | i <;> rcases ac with _ | a <;> rcases d with _ | dd <;>
    rcases av with _ | aa <;> rfl

/-- C8: for every valid `WorkspaceManifest` value (every combination of present
and absent optional fields included), `write_manifest` into a directory
followed by `read_manifest` from the same directory returns a manifest
structurally identical to the one written. -/
theorem c8_manifest_roundtrip (dir : List (String × FileData))
    (m : WorkspaceManifest) :
    read_manifest (write_manifest dir m) = Except.ok m := by
  unfold read_manifest write_manifest
  rw [getFile_setFile_same]
  simp [FileData.parseJson, manifest_from_to]

/-! ## Persistence layer, registry operations (`workspace/filesystem.rs`) -/

/-- Outcome oracle for `save_registry`: serde serialization, the temporary-file
write, and the rename are the three fallible effects of the source function. -/
structure SaveEnv where
  serialize : Except String Unit
  write_tmp : Except String Unit
  rename : Except String Unit

/-- Atomic move of a file, as `fs::rename`: the destination atomically becomes
the source's content and the source entry disappears. -/
def renameFile (dir : List (String × FileData)) (src dst : String) :
    List (String × FileData) :=
  match getFile dir src with
  | none => dir
  | some v => setFile (eraseKey dir src) dst v

/-- Source: `save_registry` (`filesystem.rs` lines 52-65).  Serializes the
registry, writes the serialization to `workspaces.json.tmp`, then renames the
temporary file over `workspaces.json`.  A failed `fs::write` leaves no
complete temporary file; the final registry path is touched by nothing but
the rename. -/
def save_registry (workspaces_root : List (String × FileData))
    (registry : WorkspaceRegistry) (env : SaveEnv) :
    List (String × FileData) × Except String Unit :=
  match env.serialize with
  | Except.error e => (workspaces_root, Except.error ("Failed to serialize registry: " ++ e))
  | Except.ok _ =>
    match env.write_tmp with
    | Except.error e =>
        (workspaces_root, Except.error ("Failed to write temporary registry: " ++ e))
    | Except.ok _ =>
      let root1 := setFile workspaces_root "workspaces.json.tmp"
        (FileData.jsonDoc (registryToJson registry))
      match env.rename with
      | Except.error e => (root1, Except.error ("Failed to rename registry file: " ++ e))
      | Except.ok _ => (renameFile root1 "workspaces.json.tmp" "workspaces.json", Except.ok ())

/-- Every filesystem state observable during a `save_registry` call (the state
before the call, after the temporary-file write, and after the rename),
truncated at the point where the environment makes a step fail.  A crash
between the temporary-file write and the rename leaves the middle state. -/
def save_registry_states (workspaces_root : List (String × FileData))
    (registry : WorkspaceRegistry) (env : SaveEnv) :
    List (List (String × FileData)) :=
  match env.serialize with
  | Except.error _ => [workspaces_root]
  | Except.ok _ =>
    match env.write_tmp with
    | Except.error _ => [workspaces_root]
    | Except.ok _ =>
      let root1 := setFile workspaces_root "workspaces.json.tmp"
        (FileData.jsonDoc (registryToJson registry))
      match env.rename with
      | Except.error _ => [workspaces_root, root1]
      | Except.ok _ =>
          [workspaces_root, root1, renameFile root1 "workspaces.json.tmp" "workspaces.json"]

/-- Source: `load_registry` (`filesystem.rs` lines 70-85).  A missing file
yields `WorkspaceRegistry::default()`; a present file is read and parsed, and
a parse failure is an error.  An IO-level read failure of a present file also
maps to an error in the source; it is not separately representable in the
pure filesystem and is subsumed by the parse-failure case. -/
def load_registry (workspaces_root : List (String × FileData)) :
    Except String WorkspaceRegistry :=
  match getFile workspaces_root "workspaces.json" with
  | none => Except.ok WorkspaceRegistry.default
  | some fd =>
    match fd.parseJson.bind registryFromJson with
    | some r => Except.ok r
    | none => Except.error "Failed to parse registry"

/-- Hexadecimal digit test used by the UUID grammar. -/
def hexDigit (c : Char) : Bool :=
  (decide ('0' ≤ c) && decide (c ≤ '9')) ||
  (decide ('a' ≤ c) && decide (c ≤ 'f')) ||
  (decide ('A' ≤ c) && decide (c ≤ 'F'))

/-- Models `uuid::Uuid::parse_str` on the hyphenated (8-4-4-4-12) and simple
(32 hex digits) forms — the forms `Uuid::new_v4().to_string()` produces and
directory names take.  The same predicate is used on the code side and on the
specification side of the rebuild equivalence, so the equivalence does not
depend on edge cases of the UUID grammar. -/
def isValidUuid (s : String) : Bool :=
  let cs := s.toList
  if cs.length = 36 then
    cs.enum.all fun ic =>
      if ic.1 = 8 || ic.1 = 13 || ic.1 = 18 || ic.1 = 23 then decide (ic.2 = '-')
      else hexDigit ic.2
  else if cs.length = 32 then
    cs.all hexDigit
  else
    false

/-- One entry of the workspaces root directory, as enumerated by
`fs::read_dir`: either a plain file or a subdirectory with its files. -/
inductive RootEntry where
  | fileE (name : String) (data : FileData) : RootEntry
  | dirE (name : String) (files : List (String × FileData)) : RootEntry

/-- Source: `rebuild_registry_from_disk` (`filesystem.rs` lines 91-144).
Scans the root, skips non-directories, skips directories whose name is not a
valid UUID, skips directories with no `manifest.json`, skips directories
whose manifest fails to read or parse (logged, not fatal), and collects an
entry per surviving directory.  The function only reads; it is a pure
function of the directory listing and returns nothing but the rebuilt
registry.  (`fs::read_dir` iteration errors are IO-level failures outside the
pure filesystem model.) -/
def rebuild_registry_from_disk (workspaces_root : List RootEntry) : WorkspaceRegistry :=
  { version := 1
  , workspaces := workspaces_root.filterMap fun e =>
      match e with
      | RootEntry.fileE _ _ => none
      | RootEntry.dirE name files =>
        if isValidUuid name then
          match getFile files "manifest.json" with
          | none => none
          | some _ =>
            match read_manifest files with
            | Except.ok m => some { id := name, name := m.name, icon := m.icon }
            | Except.error _ => none
        else none
  , last_active := none }

/-- Modelled from the spec's words for the rebuild-equivalence claim: the set
of `(id, name)` pairs a correctly maintained registry would contain — one
pair per subdirectory of the root whose name parses as a valid UUID and which
contains a readable manifest, with id the directory name and name the
manifest's name. -/
def specRebuildEntryPairs (workspaces_root : List RootEntry) : List (String × String) :=
  workspaces_root.filterMap fun e =>
    match e with
    | RootEntry.fileE _ _ => none
    | RootEntry.dirE name files =>
      if isValidUuid name then
        match (getFile files "manifest.json").bind FileData.parseJson
              |>.bind manifestFromJson with
        | some m => some (name, m.name)
        | none => none
      else none

/-! ## Workspace manager (`workspace/manager.rs`)

The manager's pools are abstract handles (`Nat`); `DatabaseManager` is an
opaque wrapper around a pool and is represented by the handle itself.
Fallible external effects (directory creation, pool connection, schema
migration, pool cleanup, registry save) are supplied by oracle records so
that every error path of the source is reachable. -/

/-- In-memory manager state (source: struct `WorkspaceManager`, `manager.rs`
lines 14-25). -/
structure WorkspaceManager where
  workspaces_root : String
  active_db : Option Nat
  global_db : Nat
  active_workspace_id : Option String
  registry : WorkspaceRegistry
deriving DecidableEq, Repr

/-- Outcome oracle for `WorkspaceManager::init`. -/
structure InitEnv where
  create_root : Except String Unit
  global_connect : Except String Nat
  global_migrations : Except String Unit

/-- Source: `WorkspaceManager::init` (`manager.rs` lines 33-75).  Creates the
workspaces root, connects the global pool, runs the global schema, loads the
registry from `workspaces_root_fs` (the contents of the `workspaces/`
directory), and returns a manager with no active workspace.  Every failure,
the registry load's included, is propagated. -/
def WorkspaceManager.init (app_data_dir : String) (env : InitEnv)
    (workspaces_root_fs : List (String × FileData)) :
    Except String WorkspaceManager :=
  match env.create_root with
  | Except.error e => Except.error ("Failed to create workspaces root: " ++ e)
  | Except.ok _ =>
    match env.global_connect with
    | Except.error e => Except.error ("Failed to connect to global database: " ++ e)
    | Except.ok global_pool =>
      match env.global_migrations with
      | Except.error e => Except.error e
      | Except.ok _ =>
        match load_registry workspaces_root_fs with
        | Except.error e => Except.error e
        | Except.ok registry =>
          Except.ok
            { workspaces_root := app_data_dir ++ "/workspaces"
            , active_db := none
            , global_db := global_pool
            , active_workspace_id := none
            , registry := registry }

/-- Source: `WorkspaceManager::active_pool` (`manager.rs` lines 80-86). -/
def WorkspaceManager.active_pool (s : WorkspaceManager) : Except String Nat :=
  match s.active_db with
  | some db_manager => Except.ok db_manager
  | none => Except.error "No active workspace. Please select or create a workspace."

/-- Source: `WorkspaceManager::last_active_id` (`manager.rs` lines 216-219). -/
def WorkspaceManager.last_active_id (s : WorkspaceManager) : Option String :=
  s.registry.last_active

/-- Source: `WorkspaceManager::list_workspaces` (`manager.rs` lines 199-202). -/
def WorkspaceManager.list_workspaces (s : WorkspaceManager) : List WorkspaceEntry :=
  s.registry.workspaces

/-- Outcome oracle for `switch_workspace`.  `cleanup_prev` is the previous
pool's cleanup outcome: the source logs a cleanup error and continues, so the
field does not influence the transition. -/
structure SwitchEnv where
  cleanup_prev : Except String Unit
  dir_exists : Bool
  manifest_exists : Bool
  connect : Except String Nat
  migrations : Except String Unit
  save_registry_result : Except String Unit

/-- Source: `WorkspaceManager::switch_workspace` (`manager.rs` lines 96-153).
Takes and cleans up the current pool (cleanup errors are logged and ignored),
validates that the target directory and its `manifest.json` exist, connects
the new pool, runs the workspace schema, installs the pool and the id,
updates the registry's `last_active` and saves the registry.  Returns the
state after the call together with the call's result. -/
def WorkspaceManager.switch_workspace (s : WorkspaceManager)
    (workspace_id : String) (env : SwitchEnv) :
    WorkspaceManager × Except String Unit :=
  let s1 := { s with active_db := none }
  if env.dir_exists = false then
    (s1, Except.error ("Workspace directory does not exist: " ++ workspace_id))
  else if env.manifest_exists = false then
    (s1, Except.error ("Workspace missing manifest.json: " ++ workspace_id))
  else
    match env.connect with
    | Except.error e =>
        (s1, Except.error ("Failed to connect to workspace database: " ++ e))
    | Except.ok pool =>
      match env.migrations with
      | Except.error e => (s1, Except.error e)
      | Except.ok _ =>
        let s2 :=
          { s1 with
            active_db := some pool
            active_workspace_id := some workspace_id
            registry := { s1.registry with last_active := some workspace_id } }
        match env.save_registry_result with
        | Except.error e => (s2, Except.error e)
        | Except.ok _ => (s2, Except.ok ())

/-- Outcome oracle for `create_workspace`: the generated UUID, the timestamp,
the crate version, and the fallible filesystem effects. -/
structure CreateEnv where
  new_id : String
  now : String
  pkg_version : String
  create_dir : Except String Unit
  manifest_write : Except String Unit
  config_write : Except String Unit
  save_registry_result : Except String Unit

/-- Source: `WorkspaceManager::create_workspace` (`manager.rs` lines 160-196).
Creates the directory tree, writes the manifest and the default config,
appends an entry to the in-memory registry and saves the registry.  Does not
switch to the new workspace.  If the registry save fails, the in-memory
append has already happened. -/
def WorkspaceManager.create_workspace (s : WorkspaceManager) (name : String)
    (env : CreateEnv) : WorkspaceManager × Except String String :=
  match env.create_dir with
  | Except.error e => (s, Except.error e)
  | Except.ok _ =>
    match env.manifest_write with
    | Except.error e => (s, Except.error e)
    | Except.ok _ =>
      match env.config_write with
      | Except.error e => (s, Except.error e)
      | Except.ok _ =>
        let s1 :=
          { s with registry :=
              { s.registry with workspaces :=
                  s.registry.workspaces ++
                    [{ id := env.new_id, name := name, icon := none }] } }
        match env.save_registry_result with
        | Except.error e => (s1, Except.error e)
        | Except.ok _ => (s1, Except.ok env.new_id)

/-- Source: `WorkspaceManager::close_active_workspace` (`manager.rs` lines
222-232).  Takes the active pool; if one was present and its cleanup fails,
the error is returned before the active id is cleared. -/
def WorkspaceManager.close_active_workspace (s : WorkspaceManager)
    (cleanup : Except String Unit) : WorkspaceManager × Except String Unit :=
  match s.active_db with
  | some _ =>
    let s1 := { s with active_db := none }
    match cleanup with
    | Except.error e =>
        (s1, Except.error ("Failed to cleanup active workspace: " ++ e))
    | Except.ok _ => ({ s1 with active_workspace_id := none }, Except.ok ())
  | none => ({ s with active_db := none, active_workspace_id := none }, Except.ok ())

/-- The spec's active-state invariant: the active pool is `Some` exactly when
the active workspace id is `Some`. -/
def poolIdInSync (s : WorkspaceManager) : Bool :=
  s.active_db.isSome = s.active_workspace_id.isSome

/-! ## Migration engine (`workspace/migration.rs`) -/

/-- SQLite values as decoded by `sqlx`. -/
inductive SqlValue where
  | text (s : String) : SqlValue
  | int (n : Int) : SqlValue
  | nullv : SqlValue
deriving DecidableEq, Repr

/-- One row of a `SELECT *` result: column name to value. -/
structure SqlRow where
  cols : List (String × SqlValue)
deriving DecidableEq, Repr

/-- Column lookup inside a row. -/
def lookupCol : List (String × SqlValue) → String → Option SqlValue
  | [], _ => none
  | (k, v) :: rest, key => if k = key then some v else lookupCol rest key

/-- `row.try_get::<String>(col)` flattened to `Option`: succeeds exactly on a
present TEXT column; a missing column, a NULL, or a non-text value is a
decode error. -/
def SqlRow.tryGetStr (r : SqlRow) (c : String) : Option String :=
  match lookupCol r.cols c with
  | some (SqlValue.text s) => some s
  | _ => none

/-- `row.try_get::<i64>(col)` / `try_get::<i32>(col)` flattened to `Option`. -/
def SqlRow.tryGetInt (r : SqlRow) (c : String) : Option Int :=
  match lookupCol r.cols c with
  | some (SqlValue.int n) => some n
  | _ => none

/-- A row of the global database's `settings` table, with the columns the
step-5 INSERT writes (`migration.rs` lines 118-141). -/
structure SettingsRow where
  id : String
  provider : String
  model : String
  whisperModel : String
  groqApiKey : Option String
  openaiApiKey : Option String
  anthropicApiKey : Option String
  ollamaApiKey : Option String
  openRouterApiKey : Option String
  ollamaEndpoint : Option String
  customOpenAIConfig : Option String
  geminiApiKey : Option String
deriving DecidableEq, Repr

/-- A row of the global `transcript_settings` table (`migration.rs` lines
150-168). -/
structure TranscriptSettingsRow where
  id : String
  provider : String
  model : String
  whisperApiKey : Option String
  deepgramApiKey : Option String
  elevenLabsApiKey : Option String
  groqApiKey : Option String
  openaiApiKey : Option String
deriving DecidableEq, Repr

/-- A row of the global `licensing` table (`migration.rs` lines 187-211). -/
structure LicensingRow where
  license_key : String
  encrypted_key : String
  signature_hash : String
  activation_date : String
  expiry_date : String
  soft_expiry_date : String
  max_activation_time : String
  duration : Int
  generated_on : String
  is_soft_expired : Int
  grace_period : Int
deriving DecidableEq, Repr

/-- The three global-database tables step 5 writes into. -/
structure GlobalDb where
  settings : List SettingsRow
  transcript_settings : List TranscriptSettingsRow
  licensing : List LicensingRow
deriving DecidableEq, Repr

/-- Decoding of one legacy `settings` row (`migration.rs` lines 118-131):
required `String` columns fall back to `""` via `unwrap_or_default`, optional
columns become `None` via `.ok()`. -/
def settingsRowOfLegacy (r : SqlRow) : SettingsRow :=
  { id := (r.tryGetStr "id").getD ""
  , provider := (r.tryGetStr "provider").getD ""
  , model := (r.tryGetStr "model").getD ""
  , whisperModel := (r.tryGetStr "whisperModel").getD ""
  , groqApiKey := r.tryGetStr "groqApiKey"
  , openaiApiKey := r.tryGetStr "openaiApiKey"
  , anthropicApiKey := r.tryGetStr "anthropicApiKey"
  , ollamaApiKey := r.tryGetStr "ollamaApiKey"
  , openRouterApiKey := r.tryGetStr "openRouterApiKey"
  , ollamaEndpoint := r.tryGetStr "ollamaEndpoint"
  , customOpenAIConfig := r.tryGetStr "customOpenAIConfig"
  , geminiApiKey := r.tryGetStr "geminiApiKey" }

/-- Decoding of one legacy `transcript_settings` row (`migration.rs` lines
150-158). -/
def transcriptRowOfLegacy (r : SqlRow) : TranscriptSettingsRow :=
  { id := (r.tryGetStr "id").getD ""
  , provider := (r.tryGetStr "provider").getD ""
  , model := (r.tryGetStr "model").getD ""
  , whisperApiKey := r.tryGetStr "whisperApiKey"
  , deepgramApiKey := r.tryGetStr "deepgramApiKey"
  , elevenLabsApiKey := r.tryGetStr "elevenLabsApiKey"
  , groqApiKey := r.tryGetStr "groqApiKey"
  , openaiApiKey := r.tryGetStr "openaiApiKey" }

/-- Decoding of one legacy `licensing` row (`migration.rs` lines 187-199):
`grace_period` falls back to `604800`, the other fallbacks are
`unwrap_or_default`. -/
def licensingRowOfLegacy (r : SqlRow) : LicensingRow :=
  { license_key := (r.tryGetStr "license_key").getD ""
  , encrypted_key := (r.tryGetStr "encrypted_key").getD ""
  , signature_hash := (r.tryGetStr "signature_hash").getD ""
  , activation_date := (r.tryGetStr "activation_date").getD ""
  , expiry_date := (r.tryGetStr "expiry_date").getD ""
  , soft_expiry_date := (r.tryGetStr "soft_expiry_date").getD ""
  , max_activation_time := (r.tryGetStr "max_activation_time").getD ""
  , duration := (r.tryGetInt "duration").getD 0
  , generated_on := (r.tryGetStr "generated_on").getD ""
  , is_soft_expired := (r.tryGetInt "is_soft_expired").getD 0
  , grace_period := (r.tryGetInt "grace_period").getD 604800 }

/-- `INSERT OR REPLACE` keyed by a natural id: the row with the same key is
replaced if one exists, otherwise the row is appended. -/
def insertOrReplaceBy {α : Type} (key : α → String) (tbl : List α) (x : α) :
    List α :=
  if tbl.any fun y => key y = key x then
    tbl.map fun y => if key y = key x then x else y
  else
    tbl ++ [x]

/-- Outcome oracle for migration step 5.  `licensing_count` is the
`sqlite_master` COUNT query whose failure is collapsed to `false` by
`.map(|c| c > 0).unwrap_or(false)`; `licensing_rows` is the licensing SELECT
whose failure is collapsed to no rows by `unwrap_or_default`. -/
structure Step5Env where
  open_orig : Except String Unit
  settings_rows : Except String (List SqlRow)
  ts_rows : Except String (List SqlRow)
  licensing_count : Except String Int
  licensing_rows : Except String (List SqlRow)

/-- Migration step 5 (`migration.rs` lines 92-219): copies the legacy
`settings` and `transcript_settings` rows and, when the table exists, the
`licensing` rows into the global database with insert-or-replace semantics.
A failed read of `settings` or `transcript_settings` aborts; the absence of
`licensing` is skipped.  The per-row INSERTs target a pure in-memory table
and cannot fail in the model (their database errors would abort in the
source). -/
def migrationStep5 (env : Step5Env) (g : GlobalDb) : Except String GlobalDb :=
  match env.open_orig with
  | Except.error e =>
      Except.error ("Failed to open original DB for settings extraction: " ++ e)
  | Except.ok _ =>
    match env.settings_rows with
    | Except.error e => Except.error ("Failed to read settings: " ++ e)
    | Except.ok srows =>
      let newSettings :=
        srows.foldl (fun t r => insertOrReplaceBy SettingsRow.id t (settingsRowOfLegacy r))
          g.settings
      let g1 := { g with settings := newSettings }
      match env.ts_rows with
      | Except.error e => Except.error ("Failed to read transcript_settings: " ++ e)
      | Except.ok trows =>
        let newTs :=
          trows.foldl
            (fun t r => insertOrReplaceBy TranscriptSettingsRow.id t (transcriptRowOfLegacy r))
            g1.transcript_settings
        let g2 := { g1 with transcript_settings := newTs }
        let has_licensing : Bool :=
          match env.licensing_count with
          | Except.ok c => decide (c > 0)
          | Except.error _ => false
        if has_licensing then
          let lrows := match env.licensing_rows with
            | Except.ok l => l
            | Except.error _ => []
          let newLic :=
            lrows.foldl
              (fun t r => insertOrReplaceBy LicensingRow.license_key t (licensingRowOfLegacy r))
              g2.licensing
          Except.ok { g2 with licensing := newLic }
        else Except.ok g2

/-- The sqlx connection-options builder, with sqlx's defaults:
`create_if_missing` and `read_only` default to `false`. -/
structure SqliteConnectOptions where
  db_filename : String := ""
  create_if_missing : Bool := false
  journal_mode : String := "wal"
  foreign_keys : Bool := true
  read_only : Bool := false
deriving DecidableEq, Repr

/-- `SqliteConnectOptions::new()`. -/
def SqliteConnectOptions.new : SqliteConnectOptions := {}

/-- `.filename(path)` (named `withFilename` because the field projection
already takes the source method's name). -/
def SqliteConnectOptions.withFilename (o : SqliteConnectOptions) (p : String) :
    SqliteConnectOptions := { o with db_filename := p }

/-- `.journal_mode(mode)`. -/
def SqliteConnectOptions.withJournalMode (o : SqliteConnectOptions) (m : String) :
    SqliteConnectOptions := { o with journal_mode := m }

/-- `.foreign_keys(b)`. -/
def SqliteConnectOptions.withForeignKeys (o : SqliteConnectOptions) (b : Bool) :
    SqliteConnectOptions := { o with foreign_keys := b }

/-- `.create_if_missing(b)`. -/
def SqliteConnectOptions.withCreateIfMissing (o : SqliteConnectOptions) (b : Bool) :
    SqliteConnectOptions := { o with create_if_missing := b }

/-- The connect options step 5 builds for the legacy database
(`migration.rs` lines 95-98): filename, WAL journaling, foreign keys — and
nothing else. -/
def step5OrigConnectOptions (existing_db_path : String) : SqliteConnectOptions :=
  ((SqliteConnectOptions.new.withFilename existing_db_path).withJournalMode
      "wal").withForeignKeys true

/-- Migration step 7 (`migration.rs` lines 256-302): opens the workspace DB
copy (failure propagates with `?`), queries `meetings` rows with a non-empty
`folder_path` (failure collapsed to no rows by `unwrap_or_default`), and
counts accessible versus inaccessible paths; the counts are only logged. -/
def migrationStep7 (open_ws : Except String Unit)
    (rows : Except String (List SqlRow)) (path_exists : String → Bool) :
    Except String (Nat × Nat) :=
  match open_ws with
  | Except.error e =>
      Except.error ("Failed to open workspace DB for audio verification: " ++ e)
  | Except.ok _ =>
    let rs := match rows with
      | Except.ok l => l
      | Except.error _ => []
    let accessible :=
      (rs.filter fun r => path_exists ((r.tryGetStr "folder_path").getD "")).length
    Except.ok (accessible, rs.length - accessible)

/-- Outcome oracle for the whole migration pipeline: one field per fallible
effect, in pipeline order.  `create_default` and `switch_default` stand for
the manager's `create_workspace` and `switch_workspace` calls, whose errors
the pipeline propagates unchanged. -/
structure MigrationEnv where
  backup_main : Except String Unit
  wal_exists : Bool
  backup_wal : Except String Unit
  shm_exists : Bool
  backup_shm : Except String Unit
  ckpt_open : Except String Unit
  ckpt_exec : Except String Unit
  create_default : Except String String
  copy_db : Except String Unit
  step5 : Step5Env
  step6_open : Except String Unit
  step6_drops : Except String Unit
  step7_open : Except String Unit
  step7_rows : Except String (List SqlRow)
  path_exists : String → Bool
  switch_default : Except String Unit
  step9_active_pool : Except String Unit
  step9_ws_count : Except String Int
  step9_open_orig : Except String Unit
  step9_orig_count : Except String Int

/-- Prefix an error with the `map_err` context string of the source. -/
def ctx {α : Type} (msg : String) (r : Except String α) : Except String α :=
  match r with
  | Except.error e => Except.error (msg ++ e)
  | Except.ok a => Except.ok a

/-- Steps 8 and 9 of the pipeline (`migration.rs` lines 304-354): switch to
the Default workspace (failure fatal), then compare the `meetings` row counts
of the workspace copy and the original (a mismatch is only logged; the count
queries and opens themselves propagate failure). -/
def migrationTail (env : MigrationEnv) (default_id : String) (g1 : GlobalDb) :
    Except String (String × GlobalDb) := do
  env.switch_default
  env.step9_active_pool
  let _ ← ctx "Failed to count workspace meetings: " env.step9_ws_count
  env.step9_open_orig
  let _ ← ctx "Failed to count original meetings: " env.step9_orig_count
  pure (default_id, g1)

/-- Source: `migrate_existing_database_to_workspace` (`migration.rs` lines
20-355), the nine-step pipeline over the outcome oracle, threading the global
database through step 5.  Returns the Default workspace id and the final
global database. -/
def migrate_existing_database_to_workspace (env : MigrationEnv) (g : GlobalDb) :
    Except String (String × GlobalDb) := do
  ctx "Failed to backup original database: " env.backup_main
  if env.wal_exists then ctx "Failed to backup WAL file: " env.backup_wal else pure ()
  if env.shm_exists then ctx "Failed to backup SHM file: " env.backup_shm else pure ()
  ctx "Failed to open DB for WAL checkpoint: " env.ckpt_open
  ctx "WAL checkpoint failed: " env.ckpt_exec
  let default_id ← env.create_default
  ctx "Failed to copy DB to workspace: " env.copy_db
  let g1 ← migrationStep5 env.step5 g
  ctx "Failed to open workspace DB for cleaning: " env.step6_open
  env.step6_drops
  let _ ← migrationStep7 env.step7_open env.step7_rows env.path_exists
  migrationTail env default_id g1

/-! ## Claim C7: rebuild equivalence -/

/-- The subdirectory entries of the workspaces root. -/
def rootDirsOnly (workspaces_root : List RootEntry) : List RootEntry :=
  workspaces_root.filter fun e =>
    match e with
    | RootEntry.dirE _ _ => true
    | RootEntry.fileE _ _ => false

/-- C7: for any on-disk state of the workspaces root,
`rebuild_registry_from_disk` returns a registry with version 1 and no
last-active whose entry sequence equals, by `(id, name)`, the subdirectories
whose name parses as a valid UUID and which contain a readable manifest
(entry id = directory name, entry name = manifest name); directories failing
either check are skipped without failing, and the result is independent of
every plain file in the root — of the content or absence of
`workspaces.json` in particular.  The function reads the listing and returns
only the rebuilt registry; by construction it modifies no workspace
directory. -/
theorem c7_rebuild_equivalence (workspaces_root : List RootEntry) :
    (rebuild_registry_from_disk workspaces_root).version = 1 ∧
    (rebuild_registry_from_disk workspaces_root).last_active = none ∧
    ((rebuild_registry_from_disk workspaces_root).workspaces.map fun e => (e.id, e.name)) =
      specRebuildEntryPairs workspaces_root ∧
    rebuild_registry_from_disk workspaces_root =
      rebuild_registry_from_disk (rootDirsOnly workspaces_root) := by
  refine ⟨rfl, rfl, ?_, ?_⟩
  · induction workspaces_root with
    | nil => rfl
    | cons e rest ih =>
      cases e with
      | fileE n d =>
        simpa [rebuild_registry_from_disk, specRebuildEntryPairs] using ih
      | dirE name files =>
        by_cases hu : isValidUuid name
        · cases hf : getFile files "manifest.json" with
          | none =>
            simpa [rebuild_registry_from_disk, specRebuildEntryPairs, hu, hf] using ih
          | some fd =>
            cases hp : fd.parseJson.bind manifestFromJson with
            | none =>
              simpa [rebuild_registry_from_disk, specRebuildEntryPairs, hu, hf,
                read_manifest, hp] using ih
            | some m =>
              simpa [rebuild_registry_from_disk, specRebuildEntryPairs, hu, hf,
                read_manifest, hp] using ih
        · simpa [rebuild_registry_from_disk, specRebuildEntryPairs, hu] using ih
  · induction workspaces_root with
    | nil => rfl
    | cons e rest ih =>
      cases e with
      | fileE n d =>
        simpa [rebuild_registry_from_disk, rootDirsOnly] using ih
      | dirE name files =>
        have hrec := congrArg WorkspaceRegistry.workspaces ih
        simp only [rebuild_registry_from_disk, rootDirsOnly] at hrec
        simp only [rebuild_registry_from_disk, rootDirsOnly, List.filter_cons, if_true]
        rw [List.filterMap_cons, List.filterMap_cons, hrec]

/-! ## Claim C2: registry loading at init -/

/-- A workspaces root whose `workspaces.json` exists but holds malformed JSON. -/
def corruptRegistryFs : List (String × FileData) :=
  [("workspaces.json", FileData.raw "not json at all")]

/-- An `init` environment in which every database-side effect succeeds. -/
def initEnvOk : InitEnv :=
  { create_root := Except.ok ()
  , global_connect := Except.ok 1
  , global_migrations := Except.ok () }

/-- C2 counterexample: with a present but unreadable (malformed JSON)
`workspaces.json` and every other effect succeeding, `load_registry` returns
an error and `WorkspaceManager::init` propagates it instead of succeeding
with the empty default registry — refuting the claim that init still
succeeds whenever the file is absent OR unreadable. -/
theorem c2_counterexample :
    load_registry corruptRegistryFs = Except.error "Failed to parse registry" ∧
    WorkspaceManager.init "/data" initEnvOk corruptRegistryFs =
      Except.error "Failed to parse registry" :=
  ⟨rfl, rfl⟩

/-- C2 amended: `WorkspaceManager::init` loads the registry from disk and,
whenever the registry file is absent, still succeeds and starts with the
empty default registry (version 1, no entries, no last-active) and no active
workspace; but when the file is present and unreadable (e.g. malformed
JSON), `load_registry` fails and `init` propagates the error instead of
succeeding. -/
theorem c2_amended (app_data_dir : String) (env : InitEnv)
    (fs : List (String × FileData)) (pool : Nat)
    (hroot : env.create_root = Except.ok ())
    (hconn : env.global_connect = Except.ok pool)
    (hmig : env.global_migrations = Except.ok ()) :
    (getFile fs "workspaces.json" = none →
      WorkspaceManager.init app_data_dir env fs =
        Except.ok
          { workspaces_root := app_data_dir ++ "/workspaces"
          , active_db := none
          , global_db := pool
          , active_workspace_id := none
          , registry := WorkspaceRegistry.default }) ∧
    (∀ fd, getFile fs "workspaces.json" = some fd →
      fd.parseJson.bind registryFromJson = none →
      WorkspaceManager.init app_data_dir env fs =
        Except.error "Failed to parse registry") := by
  constructor
  · intro habsent
    simp [WorkspaceManager.init, hroot, hconn, hmig, load_registry, habsent]
  · intro fd hpresent hbad
    simp [WorkspaceManager.init, hroot, hconn, hmig, load_registry, hpresent, hbad]

/-- C2 amended, concrete witness: an absent registry file yields a successful
init with the default registry, and the corrupt file yields the parse error. -/
theorem c2_amended_witness :
    WorkspaceManager.init "/data" initEnvOk [] =
      Except.ok
        { workspaces_root := "/data" ++ "/workspaces"
        , active_db := none
        , global_db := 1
        , active_workspace_id := none
        , registry := WorkspaceRegistry.default } :=
  (c2_amended "/data" initEnvOk [] 1 rfl rfl rfl).1 rfl

/-! ## Claim C5: atomic registry save -/

/-- C5: `save_registry` writes the serialization only to the temporary file
and changes the final registry path only by the single rename: if the call
fails, the previously visible `workspaces.json` is unchanged; no path other
than the temporary and the final one is ever touched; every filesystem state
observable during the call (crash points included) shows either the complete
prior content of `workspaces.json` or the complete new serialization; and on
success the final path holds the complete new serialization. -/
theorem c5_save_registry_atomic (root : List (String × FileData))
    (registry : WorkspaceRegistry) (env : SaveEnv) :
    ((∀ e, (save_registry root registry env).2 = Except.error e →
        getFile (save_registry root registry env).1 "workspaces.json" =
          getFile root "workspaces.json") ∧
     (∀ p, p ≠ "workspaces.json" → p ≠ "workspaces.json.tmp" →
        getFile (save_registry root registry env).1 p = getFile root p)) ∧
    ((∀ fs ∈ save_registry_states root registry env,
        getFile fs "workspaces.json" = getFile root "workspaces.json" ∨
        getFile fs "workspaces.json" =
          some (FileData.jsonDoc (registryToJson registry))) ∧
     ((save_registry root registry env).2 = Except.ok () →
        getFile (save_registry root registry env).1 "workspaces.json" =
          some (FileData.jsonDoc (registryToJson registry)))) := by
  obtain ⟨ser, wtmp, ren⟩ := env
  have htmpne : ("workspaces.json" : String) ≠ "workspaces.json.tmp" := by decide
  cases ser with
  | error e => simp [save_registry, save_registry_states]
  | ok u =>
    cases u
    cases wtmp with
    | error e => simp [save_registry, save_registry_states]
    | ok u =>
      cases u
      cases ren with
      | error e =>
        refine ⟨⟨?_, ?_⟩, ?_, ?_⟩
        · intro e' _
          exact getFile_setFile_other root "workspaces.json.tmp" "workspaces.json" _ htmpne
        · intro p hp hptmp
          exact getFile_setFile_other root "workspaces.json.tmp" p _ hptmp
        · intro fs hfs
          simp only [save_registry_states, List.mem_cons, List.not_mem_nil, or_false] at hfs
          rcases hfs with h | h
          · left; rw [h]
          · left; rw [h]
            exact getFile_setFile_other root "workspaces.json.tmp" "workspaces.json" _ htmpne
        · intro hok
          simp [save_registry] at hok
      | ok u =>
        cases u
        have hren : renameFile
            (setFile root "workspaces.json.tmp" (FileData.jsonDoc (registryToJson registry)))
            "workspaces.json.tmp" "workspaces.json" =
            setFile (eraseKey
                (setFile root "workspaces.json.tmp" (FileData.jsonDoc (registryToJson registry)))
                "workspaces.json.tmp")
              "workspaces.json" (FileData.jsonDoc (registryToJson registry)) := by
          unfold renameFile
          rw [getFile_setFile_same]
        refine ⟨⟨?_, ?_⟩, ?_, ?_⟩
        · intro e' habs
          simp [save_registry] at habs
        · intro p hp hptmp
          simp only [save_registry]
          rw [hren, getFile_setFile_other _ _ _ _ hp, getFile_eraseKey_ne _ _ _ hptmp,
            getFile_setFile_other _ _ _ _ hptmp]
        · intro fs hfs
          simp only [save_registry_states, List.mem_cons, List.not_mem_nil, or_false] at hfs
          rcases hfs with h | h | h
          · left; rw [h]
          · left; rw [h]
            exact getFile_setFile_other root "workspaces.json.tmp" "workspaces.json" _ htmpne
          · right; rw [h, hren, getFile_setFile_same]
        · intro _
          simp only [save_registry]
          rw [hren, getFile_setFile_same]

/-- C5 witness: with a failing temporary-file write, the visible registry
file is unchanged. -/
theorem c5_save_registry_atomic_witness :
    getFile (save_registry [("workspaces.json", FileData.jsonDoc Json.null)]
        WorkspaceRegistry.default
        { serialize := Except.ok (), write_tmp := Except.error "disk full"
        , rename := Except.ok () }).1 "workspaces.json" =
      getFile [("workspaces.json", FileData.jsonDoc Json.null)] "workspaces.json" :=
  (c5_save_registry_atomic [("workspaces.json", FileData.jsonDoc Json.null)]
      WorkspaceRegistry.default
      { serialize := Except.ok (), write_tmp := Except.error "disk full"
      , rename := Except.ok () }).1.1
    "Failed to write temporary registry: disk full" rfl

/-! ## Concrete fixtures for the manager claims -/

/-- A v4-format UUID used as a concrete workspace id. -/
def uuidA : String := "123e4567-e89b-12d3-a456-426614174000"

/-- The manager state produced by a successful `init` over an empty root. -/
def mgr0 : WorkspaceManager :=
  { workspaces_root := "/data/workspaces"
  , active_db := none
  , global_db := 1
  , active_workspace_id := none
  , registry := WorkspaceRegistry.default }

/-- A manager with an active workspace. -/
def mgrActive : WorkspaceManager :=
  { mgr0 with active_db := some 2, active_workspace_id := some uuidA }

/-- A `switch_workspace` environment in which every effect succeeds. -/
def switchEnvOk : SwitchEnv :=
  { cleanup_prev := Except.ok ()
  , dir_exists := true
  , manifest_exists := true
  , connect := Except.ok 2
  , migrations := Except.ok ()
  , save_registry_result := Except.ok () }

/-- A `switch_workspace` environment whose target directory does not exist. -/
def switchEnvMissingDir : SwitchEnv :=
  { switchEnvOk with dir_exists := false }

/-- A `create_workspace` environment in which every effect succeeds. -/
def createEnvOk : CreateEnv :=
  { new_id := uuidA
  , now := "2026-01-01T00:00:00+00:00"
  , pkg_version := "0.1.0"
  , create_dir := Except.ok ()
  , manifest_write := Except.ok ()
  , config_write := Except.ok ()
  , save_registry_result := Except.ok () }

/-! ## Claim C6: switch/close success postconditions -/

/-- C6: whenever `switch_workspace(id)` returns success, the active workspace
id is `Some id` and `active_pool` succeeds; and whenever
`close_active_workspace` returns success, the active workspace id is `None`
and `active_pool` returns the no-active-workspace error. -/
theorem c6_switch_close_postconditions :
    (∀ (s : WorkspaceManager) (id : String) (env : SwitchEnv),
        (s.switch_workspace id env).2 = Except.ok () →
        (s.switch_workspace id env).1.active_workspace_id = some id ∧
        ∃ p, (s.switch_workspace id env).1.active_pool = Except.ok p) ∧
    (∀ (s : WorkspaceManager) (cleanup : Except String Unit),
        (s.close_active_workspace cleanup).2 = Except.ok () →
        (s.close_active_workspace cleanup).1.active_workspace_id = none ∧
        (s.close_active_workspace cleanup).1.active_pool =
          Except.error "No active workspace. Please select or create a workspace.") := by
  constructor
  · intro s id env h
    obtain ⟨cp, de, me, conn, mig, sr⟩ := env
    cases de <;> cases me <;> rcases conn with e | p <;> rcases mig with e2 | u <;>
      rcases sr with e3 | u2 <;>
      simp_all [WorkspaceManager.switch_workspace, WorkspaceManager.active_pool]
  · intro s cleanup h
    rcases hdb : s.active_db with _ | p <;> rcases cleanup with e | u <;>
      simp_all [WorkspaceManager.close_active_workspace, WorkspaceManager.active_pool]

/-- C6 witness: a concrete successful switch and a concrete successful close
exhibit the postconditions. -/
theorem c6_switch_close_postconditions_witness :
    ((mgr0.switch_workspace uuidA switchEnvOk).1.active_workspace_id = some uuidA ∧
     ∃ p, (mgr0.switch_workspace uuidA switchEnvOk).1.active_pool = Except.ok p) ∧
    ((mgrActive.close_active_workspace (Except.ok ())).1.active_workspace_id = none ∧
     (mgrActive.close_active_workspace (Except.ok ())).1.active_pool =
       Except.error "No active workspace. Please select or create a workspace.") :=
  ⟨c6_switch_close_postconditions.1 mgr0 uuidA switchEnvOk rfl,
   c6_switch_close_postconditions.2 mgrActive (Except.ok ()) rfl⟩

/-! ## Claim C9: failed switch clears the pool but keeps the id -/

/-- C9: if `switch_workspace(id)` is called while a workspace was active and
fails at the validation step (missing directory or missing `manifest.json`),
then the call returns an error, `active_pool` afterwards returns the
no-active-workspace error (the previous pool was already taken and closed,
with no rollback), yet `active_workspace_id` still returns the previously
active workspace's id. -/
theorem c9_failed_switch_pool_cleared_id_kept (s : WorkspaceManager) (p : Nat)
    (prev workspace_id : String) (env : SwitchEnv)
    (_hdb : s.active_db = some p) (hid : s.active_workspace_id = some prev)
    (hval : env.dir_exists = false ∨ env.manifest_exists = false) :
    (∃ e, (s.switch_workspace workspace_id env).2 = Except.error e) ∧
    (s.switch_workspace workspace_id env).1.active_pool =
      Except.error "No active workspace. Please select or create a workspace." ∧
    (s.switch_workspace workspace_id env).1.active_workspace_id = some prev := by
  obtain ⟨cp, de, me, conn, mig, sr⟩ := env
  rcases hval with h | h
  · subst h
    simp [WorkspaceManager.switch_workspace, WorkspaceManager.active_pool, hid]
  · subst h
    cases de <;>
      simp [WorkspaceManager.switch_workspace, WorkspaceManager.active_pool, hid]

/-- C9 witness: a concrete active manager and a switch to a missing
directory. -/
theorem c9_failed_switch_pool_cleared_id_kept_witness :
    (∃ e, (mgrActive.switch_workspace "no-such-id" switchEnvMissingDir).2 =
        Except.error e) ∧
    (mgrActive.switch_workspace "no-such-id" switchEnvMissingDir).1.active_pool =
      Except.error "No active workspace. Please select or create a workspace." ∧
    (mgrActive.switch_workspace "no-such-id" switchEnvMissingDir).1.active_workspace_id =
      some uuidA :=
  c9_failed_switch_pool_cleared_id_kept mgrActive 2 uuidA "no-such-id"
    switchEnvMissingDir rfl rfl (Or.inl rfl)

/-! ## Claim C10: close with failing cleanup is not atomic -/

/-- C10: if `close_active_workspace` runs with an active workspace and the
pool's cleanup fails, the call returns an error after the pool has been
removed but before the id is cleared: afterwards `active_pool` returns the
no-active-workspace error while `active_workspace_id` still returns the old
id. -/
theorem c10_close_cleanup_failure_keeps_id (s : WorkspaceManager) (p : Nat)
    (old_id e : String) (cleanup : Except String Unit)
    (hdb : s.active_db = some p) (hid : s.active_workspace_id = some old_id)
    (hcl : cleanup = Except.error e) :
    (s.close_active_workspace cleanup).2 =
      Except.error ("Failed to cleanup active workspace: " ++ e) ∧
    (s.close_active_workspace cleanup).1.active_pool =
      Except.error "No active workspace. Please select or create a workspace." ∧
    (s.close_active_workspace cleanup).1.active_workspace_id = some old_id := by
  subst hcl
  simp [WorkspaceManager.close_active_workspace, WorkspaceManager.active_pool, hdb, hid]

/-- C10 witness: a concrete active manager whose pool cleanup fails. -/
theorem c10_close_cleanup_failure_keeps_id_witness :
    (mgrActive.close_active_workspace (Except.error "pool busy")).2 =
      Except.error ("Failed to cleanup active workspace: " ++ "pool busy") ∧
    (mgrActive.close_active_workspace (Except.error "pool busy")).1.active_pool =
      Except.error "No active workspace. Please select or create a workspace." ∧
    (mgrActive.close_active_workspace (Except.error "pool busy")).1.active_workspace_id =
      some uuidA :=
  c10_close_cleanup_failure_keeps_id mgrActive 2 uuidA "pool busy"
    (Except.error "pool busy") rfl rfl rfl

/-! ## Claim C1: the pool/id invariant -/

/-- C1 counterexample: a reachable trace — successful init, create and switch
followed by a switch to a missing directory — ends in a state where the
active pool is `None` while the active workspace id is still `Some`, so the
two are not updated together on the error paths of `switch_workspace`. -/
theorem c1_counterexample :
    WorkspaceManager.init "/data" initEnvOk [] = Except.ok mgr0 ∧
    (mgr0.create_workspace "Default" createEnvOk).2 = Except.ok uuidA ∧
    ((mgr0.create_workspace "Default" createEnvOk).1.switch_workspace uuidA
        switchEnvOk).2 = Except.ok () ∧
    poolIdInSync ((mgr0.create_workspace "Default" createEnvOk).1.switch_workspace
        uuidA switchEnvOk).1 = true ∧
    (((mgr0.create_workspace "Default" createEnvOk).1.switch_workspace uuidA
          switchEnvOk).1.switch_workspace "missing-id" switchEnvMissingDir).2 =
      Except.error ("Workspace directory does not exist: " ++ "missing-id") ∧
    (((mgr0.create_workspace "Default" createEnvOk).1.switch_workspace uuidA
          switchEnvOk).1.switch_workspace "missing-id" switchEnvMissingDir).1.active_db =
      none ∧
    (((mgr0.create_workspace "Default" createEnvOk).1.switch_workspace uuidA
          switchEnvOk).1.switch_workspace "missing-id"
        switchEnvMissingDir).1.active_workspace_id = some uuidA ∧
    poolIdInSync (((mgr0.create_workspace "Default" createEnvOk).1.switch_workspace
        uuidA switchEnvOk).1.switch_workspace "missing-id" switchEnvMissingDir).1 =
      false :=
  ⟨rfl, rfl, rfl, rfl, rfl, rfl, rfl, rfl⟩

/-- C1 amended: the invariant "active pool is `Some` iff active workspace id
is `Some`" is established by `init` and preserved by every operation that
returns success (`switch_workspace`, `close_active_workspace`,
`create_workspace` on all its paths); but on the error paths of
`switch_workspace` and of `close_active_workspace` the pool is cleared while
the id is retained, so the two can be left independent there. -/
theorem c1_amended :
    (∀ (app_data_dir : String) (env : InitEnv) (fs : List (String × FileData))
        (s0 : WorkspaceManager),
        WorkspaceManager.init app_data_dir env fs = Except.ok s0 →
        poolIdInSync s0 = true) ∧
    (∀ (s : WorkspaceManager) (workspace_id : String) (env : SwitchEnv),
        (s.switch_workspace workspace_id env).2 = Except.ok () →
        poolIdInSync (s.switch_workspace workspace_id env).1 = true) ∧
    (∀ (s : WorkspaceManager) (cleanup : Except String Unit),
        (s.close_active_workspace cleanup).2 = Except.ok () →
        poolIdInSync (s.close_active_workspace cleanup).1 = true) ∧
    (∀ (s : WorkspaceManager) (name : String) (env : CreateEnv),
        poolIdInSync s = true →
        poolIdInSync (s.create_workspace name env).1 = true) := by
  refine ⟨?_, ?_, ?_, ?_⟩
  · intro app env fs s0 h
    obtain ⟨cr, gc, gm⟩ := env
    rcases cr with e | u
    · simp [WorkspaceManager.init] at h
    · rcases gc with e | p
      · simp [WorkspaceManager.init] at h
      · rcases gm with e | u2
        · simp [WorkspaceManager.init] at h
        · cases hlr : load_registry fs with
          | error e => simp [WorkspaceManager.init, hlr] at h
          | ok reg =>
            simp [WorkspaceManager.init, hlr] at h
            rw [← h]
            rfl
  · intro s workspace_id env h
    obtain ⟨cp, de, me, conn, mig, sr⟩ := env
    cases de <;> cases me <;> rcases conn with e | p <;> rcases mig with e2 | u <;>
      rcases sr with e3 | u2 <;>
      simp_all [WorkspaceManager.switch_workspace, poolIdInSync]
  · intro s cleanup h
    rcases hdb : s.active_db with _ | p <;> rcases cleanup with e | u <;>
      simp_all [WorkspaceManager.close_active_workspace, poolIdInSync]
  · intro s name env h
    obtain ⟨nid, now, pv, cd, mw, cw, sr⟩ := env
    rcases cd with e | u <;> rcases mw with e2 | u2 <;> rcases cw with e3 | u3 <;>
      rcases sr with e4 | u4 <;>
      simp_all [WorkspaceManager.create_workspace, poolIdInSync]

/-- C1 amended witness: init establishes the invariant on a concrete run and
a concrete successful switch preserves it. -/
theorem c1_amended_witness :
    poolIdInSync mgr0 = true ∧
    poolIdInSync (mgr0.switch_workspace uuidA switchEnvOk).1 = true :=
  ⟨c1_amended.1 "/data" initEnvOk [] mgr0 rfl,
   c1_amended.2.1 mgr0 uuidA switchEnvOk rfl⟩

/-! ## Insert-or-replace lemmas for the migration claims -/

theorem insertOrReplaceBy_exists_key {α : Type} (key : α → String) (tbl : List α)
    (x : α) : ∃ y ∈ insertOrReplaceBy key tbl x, key y = key x := by
  unfold insertOrReplaceBy
  by_cases h : tbl.any fun y => key y = key x
  · simp only [h, if_true]
    rcases List.any_eq_true.1 h with ⟨y, hy, hk⟩
    have hk' : key y = key x := of_decide_eq_true hk
    exact ⟨x, List.mem_map.2 ⟨y, hy, by simp [hk']⟩, rfl⟩
  · simp only [h, if_false]
    exact ⟨x, by simp, rfl⟩

theorem insertOrReplaceBy_preserves_key {α : Type} (key : α → String)
    (tbl : List α) (x : α) (k : String) (h : ∃ y ∈ tbl, key y = k) :
    ∃ y ∈ insertOrReplaceBy key tbl x, key y = k := by
  obtain ⟨y, hy, hk⟩ := h
  unfold insertOrReplaceBy
  by_cases ha : tbl.any fun z => key z = key x
  · simp only [ha, if_true]
    by_cases hkx : key y = key x
    · exact ⟨x, List.mem_map.2 ⟨y, hy, by simp [hkx]⟩, by rw [← hkx, hk]⟩
    · exact ⟨y, List.mem_map.2 ⟨y, hy, by simp [hkx]⟩, hk⟩
  · simp only [ha, if_false]
    exact ⟨y, List.mem_append.2 (Or.inl hy), hk⟩

theorem insertOrReplaceBy_provenance {α : Type} (key : α → String) (tbl : List α)
    (x : α) : ∀ y ∈ insertOrReplaceBy key tbl x, y ∈ tbl ∨ y = x := by
  intro y hy
  unfold insertOrReplaceBy at hy
  by_cases h : tbl.any fun z => key z = key x
  · rw [if_pos h] at hy
    rcases List.mem_map.1 hy with ⟨z, hz, hzy⟩
    by_cases hk : key z = key x
    · rw [if_pos hk] at hzy
      exact Or.inr hzy.symm
    · rw [if_neg hk] at hzy
      exact Or.inl (hzy ▸ hz)
  · rw [if_neg h] at hy
    rcases List.mem_append.1 hy with h' | h'
    · exact Or.inl h'
    · exact Or.inr (List.mem_singleton.1 h')

theorem foldl_ior_preserves {α β : Type} (key : α → String) (proj : β → α)
    (rows : List β) (tbl : List α) (k : String) (h : ∃ y ∈ tbl, key y = k) :
    ∃ y ∈ rows.foldl (fun t r => insertOrReplaceBy key t (proj r)) tbl, key y = k := by
  induction rows generalizing tbl with
  | nil => exact h
  | cons r rest ih =>
    exact ih (insertOrReplaceBy key tbl (proj r))
      (insertOrReplaceBy_preserves_key key tbl (proj r) k h)

theorem foldl_ior_mem {α β : Type} (key : α → String) (proj : β → α)
    (rows : List β) (tbl : List α) (r : β) (hr : r ∈ rows) :
    ∃ y ∈ rows.foldl (fun t r => insertOrReplaceBy key t (proj r)) tbl,
      key y = key (proj r) := by
  induction rows generalizing tbl with
  | nil => cases hr
  | cons r0 rest ih =>
    rcases List.mem_cons.1 hr with h | h
    · subst h
      exact foldl_ior_preserves key proj rest (insertOrReplaceBy key tbl (proj r))
        (key (proj r)) (insertOrReplaceBy_exists_key key tbl (proj r))
    · exact ih (insertOrReplaceBy key tbl (proj r0)) h

theorem foldl_ior_provenance {α β : Type} (key : α → String) (proj : β → α)
    (rows : List β) (tbl : List α) :
    ∀ y ∈ rows.foldl (fun t r => insertOrReplaceBy key t (proj r)) tbl,
      y ∈ tbl ∨ ∃ r ∈ rows, y = proj r := by
  induction rows generalizing tbl with
  | nil => exact fun y hy => Or.inl hy
  | cons r0 rest ih =>
    intro y hy
    rcases ih (insertOrReplaceBy key tbl (proj r0)) y hy with h | ⟨r, hr, hy'⟩
    · rcases insertOrReplaceBy_provenance key tbl (proj r0) y h with h' | h'
      · exact Or.inl h'
      · exact Or.inr ⟨r0, List.mem_cons_self r0 rest, h'⟩
    · exact Or.inr ⟨r, List.mem_cons_of_mem r0 hr, hy'⟩

/-- Inversion of a successful step 5 with both required reads succeeding: the
resulting settings and transcript-settings tables are the insert-or-replace
folds of the legacy rows over the prior global tables. -/
theorem migrationStep5_ok_fields (rows trows : List SqlRow)
    (lc : Except String Int) (lr : Except String (List SqlRow)) (g g' : GlobalDb)
    (hok : migrationStep5 ⟨Except.ok (), Except.ok rows, Except.ok trows, lc, lr⟩ g =
      Except.ok g') :
    g'.settings =
      rows.foldl (fun t r => insertOrReplaceBy SettingsRow.id t (settingsRowOfLegacy r))
        g.settings ∧
    g'.transcript_settings =
      trows.foldl
        (fun t r => insertOrReplaceBy TranscriptSettingsRow.id t (transcriptRowOfLegacy r))
        g.transcript_settings := by
  rcases lc with e | c
  · simp [migrationStep5] at hok
    rw [← hok]
    exact ⟨rfl, rfl⟩
  · by_cases hc : c > 0
    · simp [migrationStep5, hc] at hok
      rw [← hok]
      exact ⟨rfl, rfl⟩
    · simp [migrationStep5, hc] at hok
      rw [← hok]
      exact ⟨rfl, rfl⟩

/-! ## Claim C4: step 5 partitioning of global data -/

/-- C4 counterexample: the connection options step 5 builds for the legacy
database never set `read_only`, so the legacy file is opened through an
ordinary read-write connection — refuting the claim's "opens the legacy
database file read-only". -/
theorem c4_counterexample :
    (step5OrigConnectOptions "/data/meeting_minutes.sqlite").read_only = false :=
  rfl

/-- C4 amended: step 5 opens the legacy database through an ordinary
read-write connection (WAL journaling and foreign keys on, `read_only` never
set); for every row of the legacy `settings` and `transcript_settings`
tables, a row with the same natural id exists in the global database after a
successful step 5, inserted with insert-or-replace semantics; every
resulting row is either a prior global row or the default-substituted decode
of a legacy row (unreadable required columns become `""`, unreadable
optional columns become NULL); an absent licensing table is skipped silently
with the global licensing table unchanged; and a failed read of `settings`
or `transcript_settings` aborts the whole step with an error. -/
theorem c4_amended :
    (∀ path : String,
        (step5OrigConnectOptions path).db_filename = path ∧
        (step5OrigConnectOptions path).journal_mode = "wal" ∧
        (step5OrigConnectOptions path).foreign_keys = true ∧
        (step5OrigConnectOptions path).read_only = false) ∧
    (∀ (rows trows : List SqlRow) (lc : Except String Int)
        (lr : Except String (List SqlRow)) (g g' : GlobalDb),
        migrationStep5 ⟨Except.ok (), Except.ok rows, Except.ok trows, lc, lr⟩ g =
          Except.ok g' →
        ∀ r ∈ rows, ∃ s ∈ g'.settings, s.id = (settingsRowOfLegacy r).id) ∧
    (∀ (rows trows : List SqlRow) (lc : Except String Int)
        (lr : Except String (List SqlRow)) (g g' : GlobalDb),
        migrationStep5 ⟨Except.ok (), Except.ok rows, Except.ok trows, lc, lr⟩ g =
          Except.ok g' →
        ∀ r ∈ trows, ∃ s ∈ g'.transcript_settings,
          s.id = (transcriptRowOfLegacy r).id) ∧
    (∀ (rows trows : List SqlRow) (lc : Except String Int)
        (lr : Except String (List SqlRow)) (g g' : GlobalDb),
        migrationStep5 ⟨Except.ok (), Except.ok rows, Except.ok trows, lc, lr⟩ g =
          Except.ok g' →
        ∀ s ∈ g'.settings, s ∈ g.settings ∨ ∃ r ∈ rows, s = settingsRowOfLegacy r) ∧
    (∀ (rows trows : List SqlRow) (lc : Except String Int)
        (lr : Except String (List SqlRow)) (g : GlobalDb),
        (∀ c, lc = Except.ok c → c ≤ 0) →
        ∃ g', migrationStep5 ⟨Except.ok (), Except.ok rows, Except.ok trows, lc, lr⟩ g =
            Except.ok g' ∧ g'.licensing = g.licensing) ∧
    (∀ (e : String) (tr : Except String (List SqlRow)) (lc : Except String Int)
        (lr : Except String (List SqlRow)) (g : GlobalDb),
        migrationStep5 ⟨Except.ok (), Except.error e, tr, lc, lr⟩ g =
          Except.error ("Failed to read settings: " ++ e)) ∧
    (∀ (e : String) (rows : List SqlRow) (lc : Except String Int)
        (lr : Except String (List SqlRow)) (g : GlobalDb),
        migrationStep5 ⟨Except.ok (), Except.ok rows, Except.error e, lc, lr⟩ g =
          Except.error ("Failed to read transcript_settings: " ++ e)) := by
  refine ⟨?_, ?_, ?_, ?_, ?_, ?_, ?_⟩
  · intro path
    exact ⟨rfl, rfl, rfl, rfl⟩
  · intro rows trows lc lr g g' hok r hr
    rw [(migrationStep5_ok_fields rows trows lc lr g g' hok).1]
    exact foldl_ior_mem SettingsRow.id settingsRowOfLegacy rows g.settings r hr
  · intro rows trows lc lr g g' hok r hr
    rw [(migrationStep5_ok_fields rows trows lc lr g g' hok).2]
    exact foldl_ior_mem TranscriptSettingsRow.id transcriptRowOfLegacy trows
      g.transcript_settings r hr
  · intro rows trows lc lr g g' hok s hs
    rw [(migrationStep5_ok_fields rows trows lc lr g g' hok).1] at hs
    exact foldl_ior_provenance SettingsRow.id settingsRowOfLegacy rows g.settings s hs
  · intro rows trows lc lr g hlc
    rcases lc with e | c
    · exact ⟨_, rfl, rfl⟩
    · have hcf : decide (c > 0) = false := decide_eq_false (by
        have := hlc c rfl
        omega)
      have hstep : migrationStep5
          ⟨Except.ok (), Except.ok rows, Except.ok trows, Except.ok c, lr⟩ g =
          Except.ok
            { settings :=
                rows.foldl
                  (fun t r => insertOrReplaceBy SettingsRow.id t (settingsRowOfLegacy r))
                  g.settings
            , transcript_settings :=
                trows.foldl
                  (fun t r =>
                    insertOrReplaceBy TranscriptSettingsRow.id t (transcriptRowOfLegacy r))
                  g.transcript_settings
            , licensing := g.licensing } := by
        simp [migrationStep5, hcf]
      exact ⟨_, hstep, rfl⟩
  · intro e tr lc lr g
    rfl
  · intro e rows lc lr g
    rfl

/-- A concrete legacy settings row for the C4 witness. -/
def demoSettingsRow : SqlRow :=
  ⟨[("id", SqlValue.text "default"), ("provider", SqlValue.text "openai")]⟩

/-- The empty global database. -/
def emptyGlobalDb : GlobalDb :=
  { settings := [], transcript_settings := [], licensing := [] }

/-- The global database after migrating the single demo settings row. -/
def demoGlobalAfter : GlobalDb :=
  { settings := [settingsRowOfLegacy demoSettingsRow]
  , transcript_settings := []
  , licensing := [] }

/-- C4 witness: migrating one concrete legacy settings row into the empty
global database leaves a row with the same natural id. -/
theorem c4_amended_witness :
    ∃ s ∈ demoGlobalAfter.settings, s.id = (settingsRowOfLegacy demoSettingsRow).id :=
  c4_amended.2.1 [demoSettingsRow] [] (Except.ok 0) (Except.ok [])
    emptyGlobalDb demoGlobalAfter rfl demoSettingsRow (List.mem_singleton.2 rfl)

/-! ## Claim C3: migration step 7 -/

/-- A step-5 environment in which every read succeeds with no rows. -/
def step5EnvOk : Step5Env :=
  { open_orig := Except.ok ()
  , settings_rows := Except.ok []
  , ts_rows := Except.ok []
  , licensing_count := Except.ok 0
  , licensing_rows := Except.ok [] }

/-- A migration environment in which every effect succeeds except the step-7
open of the workspace database copy. -/
def migrationEnvStep7OpenFails : MigrationEnv :=
  { backup_main := Except.ok ()
  , wal_exists := false
  , backup_wal := Except.ok ()
  , shm_exists := false
  , backup_shm := Except.ok ()
  , ckpt_open := Except.ok ()
  , ckpt_exec := Except.ok ()
  , create_default := Except.ok uuidA
  , copy_db := Except.ok ()
  , step5 := step5EnvOk
  , step6_open := Except.ok ()
  , step6_drops := Except.ok ()
  , step7_open := Except.error "io error"
  , step7_rows := Except.ok []
  , path_exists := fun _ => true
  , switch_default := Except.ok ()
  , step9_active_pool := Except.ok ()
  , step9_ws_count := Except.ok 0
  , step9_open_orig := Except.ok ()
  , step9_orig_count := Except.ok 0 }

/-- C3 counterexample: with every other step succeeding, a failure to open
the workspace database copy during step 7 makes the whole migration return
an error — refuting the claim that step 7 never causes
`migrate_existing_database_to_workspace` to return an error. -/
theorem c3_counterexample :
    migrate_existing_database_to_workspace migrationEnvStep7OpenFails emptyGlobalDb =
      Except.error ("Failed to open workspace DB for audio verification: " ++ "io error") :=
  rfl

/-- C3 amended: step 7's meetings query and per-path accessibility checks
never cause an error (a failed query yields an empty row list and the step
proceeds, only logging counts), and whenever the workspace database copy
opens successfully in step 7 the pipeline proceeds to step 8 regardless of
the query outcome; but a failure to open the workspace database copy in step
7 does abort the migration with an error. -/
theorem c3_amended :
    (∀ (rows : Except String (List SqlRow)) (path_exists : String → Bool),
        ∃ counts, migrationStep7 (Except.ok ()) rows path_exists = Except.ok counts) ∧
    (∀ (e : String) (rows : Except String (List SqlRow)) (path_exists : String → Bool),
        migrationStep7 (Except.error e) rows path_exists =
          Except.error ("Failed to open workspace DB for audio verification: " ++ e)) ∧
    (∀ (env : MigrationEnv) (g : GlobalDb) (default_id : String) (g1 : GlobalDb),
        env.backup_main = Except.ok () → env.backup_wal = Except.ok () →
        env.backup_shm = Except.ok () → env.ckpt_open = Except.ok () →
        env.ckpt_exec = Except.ok () → env.create_default = Except.ok default_id →
        env.copy_db = Except.ok () → migrationStep5 env.step5 g = Except.ok g1 →
        env.step6_open = Except.ok () → env.step6_drops = Except.ok () →
        env.step7_open = Except.ok () →
        migrate_existing_database_to_workspace env g =
          migrationTail env default_id g1) := by
  refine ⟨?_, ?_, ?_⟩
  · intro rows path_exists
    exact ⟨_, rfl⟩
  · intro e rows path_exists
    rfl
  · intro env g default_id g1 h1 h2 h3 h4 h5 h6 h7 h8 h9 h10 h11
    obtain ⟨bm, we, bw, se, bs, co, ce, cd, cp, s5, s6o, s6d, s7o, s7r, pe, sw,
      ap, wc, oo, oc⟩ := env
    simp only at h1 h2 h3 h4 h5 h6 h7 h8 h9 h10 h11
    subst h1 h2 h3 h4 h5 h6 h7 h9 h10 h11
    cases we <;> cases se <;>
      simp only [migrate_existing_database_to_workspace, ctx, h8, migrationStep7,
        migrationTail, Bool.false_eq_true, if_false, if_true] <;>
      rfl

/-- A migration environment in which step 7's open succeeds but its meetings
query fails. -/
def migrationEnvStep7QueryFails : MigrationEnv :=
  { migrationEnvStep7OpenFails with
    step7_open := Except.ok ()
    step7_rows := Except.error "no such table: meetings" }

/-- C3 amended witness: a successful open of the workspace copy with a
failing meetings query still lets step 7 succeed, and the concrete pipeline
proceeds past step 7 to the step-8/9 tail. -/
theorem c3_amended_witness :
    (∃ counts, migrationStep7 (Except.ok ()) (Except.error "no such table: meetings")
        (fun _ => true) = Except.ok counts) ∧
    migrate_existing_database_to_workspace migrationEnvStep7QueryFails emptyGlobalDb =
      migrationTail migrationEnvStep7QueryFails uuidA emptyGlobalDb :=
  ⟨c3_amended.1 (Except.error "no such table: meetings") (fun _ => true),
   c3_amended.2.2 migrationEnvStep7QueryFails emptyGlobalDb uuidA emptyGlobalDb
     rfl rfl rfl rfl rfl rfl rfl rfl rfl rfl rfl⟩
